import Mathlib

/-
  Verification development for the homework-status Telegram bot
  (src/homework.py).  The Python program is shallowly embedded:
  JSON-like Python values become the inductive `PyVal`, Python
  exceptions become the inductive `PollError`, fallible functions
  return `Except`, the network and the Telegram channel are passed
  in explicitly as data, and the infinite polling loop is run on an
  explicit finite list of per-cycle environments.
-/

namespace HomeworkBot

/-- Python values as they appear in this program: `None`, booleans,
integers, strings, lists and string-keyed dictionaries (the JSON
payloads the bot manipulates). -/
inductive PyVal where
  | none
  | bool (b : Bool)
  | int (n : Int)
  | str (s : String)
  | list (xs : List PyVal)
  | dict (entries : List (String × PyVal))

/-- The exception classes the program can raise, each carrying the
message string of the raised exception.  `missingKey` stands for the
repository's `MissiningKeyException` and `telegramError` for its
`TelegramAnyErrorException` (both are plain `Exception` subclasses;
modelled from the spec: the file `exceptions.py` defining them is not
under src/, only their import and raising sites are). -/
inductive PollError where
  | typeError (msg : String)
  | missingKey (msg : String)
  | keyError (msg : String)
  | connectionError (msg : String)
  | telegramError (msg : String)
  | indexError (msg : String)
  | attributeError (msg : String)
deriving DecidableEq

/-- The kind of an error, ignoring its message. -/
inductive ErrKind where
  | typeError
  | missingKey
  | keyError
  | connectionError
  | telegramError
  | indexError
  | attributeError
deriving DecidableEq

def PollError.kind : PollError → ErrKind
  | .typeError _ => ErrKind.typeError
  | .missingKey _ => ErrKind.missingKey
  | .keyError _ => ErrKind.keyError
  | .connectionError _ => ErrKind.connectionError
  | .telegramError _ => ErrKind.telegramError
  | .indexError _ => ErrKind.indexError
  | .attributeError _ => ErrKind.attributeError

/-- Python `str(error)`: the exception's message, except that
`str` of a `KeyError` wraps the message in single quotes. -/
def PollError.errStr : PollError → String
  | .keyError m => "\x27" ++ m ++ "\x27"
  | .typeError m => m
  | .missingKey m => m
  | .connectionError m => m
  | .telegramError m => m
  | .indexError m => m
  | .attributeError m => m

/-- Python `dict.get(key)`: first value bound to `key`, as Python dicts have
unique keys the first binding is the binding. -/
def dictGet (entries : List (String × PyVal)) (key : String) : Option PyVal :=
  match entries with
  | [] => Option.none
  | (k, v) :: rest => if k = key then some v else dictGet rest key

/-- Python truthiness of a value (`bool(v)`). -/
def truthy : PyVal → Bool
  | PyVal.none => false
  | PyVal.bool b => b
  | PyVal.int n => n != 0
  | PyVal.str s => !(s == "")
  | PyVal.list xs => !xs.isEmpty
  | PyVal.dict es => !es.isEmpty

/-- Truthiness of a `dict.get` result (`None` when the key is absent). -/
def optTruthy : Option PyVal → Bool
  | Option.none => false
  | some v => truthy v

def reprNone : String := "None"
def reprTrue : String := "True"
def reprFalse : String := "False"
def reprQuote : String := "\x27"
def reprSep : String := ", "
def reprLB : String := "["
def reprRB : String := "]"
def reprDB : String := "\x7b"
def reprDE : String := "\x7d"
def reprColon : String := ": "

mutual
/-- Python `repr` of a value (string escaping inside `repr` of a string
is not modelled; the program only ever formats plain names). -/
def pyRepr : PyVal → String
  | PyVal.none => reprNone
  | PyVal.bool b => if b then reprTrue else reprFalse
  | PyVal.int n => toString n
  | PyVal.str s => reprQuote ++ s ++ reprQuote
  | PyVal.list xs => reprLB ++ pyReprList xs ++ reprRB
  | PyVal.dict es => reprDB ++ pyReprEntries es ++ reprDE

def pyReprList : List PyVal → String
  | [] => ""
  | [x] => pyRepr x
  | x :: y :: rest => pyRepr x ++ reprSep ++ pyReprList (y :: rest)

def pyReprEntries : List (String × PyVal) → String
  | [] => ""
  | [(k, v)] => reprQuote ++ k ++ reprQuote ++ reprColon ++ pyRepr v
  | (k, v) :: e :: rest =>
      reprQuote ++ k ++ reprQuote ++ reprColon ++ pyRepr v ++ reprSep
        ++ pyReprEntries (e :: rest)
end

/-- Python `str(v)` as used by f-string interpolation: identity on
strings, `repr`-like rendering otherwise. -/
def pyStrOf : PyVal → String
  | PyVal.str s => s
  | PyVal.none => reprNone
  | PyVal.bool b => if b then reprTrue else reprFalse
  | PyVal.int n => toString n
  | PyVal.list xs => pyRepr (PyVal.list xs)
  | PyVal.dict es => pyRepr (PyVal.dict es)

/- ------------------------------------------------------------------
   Constants of homework.py
   ------------------------------------------------------------------ -/

def RETRY_PERIOD : Int := 600

def ENDPOINT : String := "https://practicum.yandex.ru/api/user_api/homework_statuses/"

def verdictApproved : String := "Работа проверена: ревьюеру всё понравилось. Ура!"
def verdictReviewing : String := "Работа взята на проверку ревьюером."
def verdictRejected : String := "Работа проверена: у ревьюера есть замечания."

def kApproved : String := "approved"
def kReviewing : String := "reviewing"
def kRejected : String := "rejected"

def HOMEWORK_VERDICTS : List (String × String) :=
  [(kApproved, verdictApproved), (kReviewing, verdictReviewing), (kRejected, verdictRejected)]

/-- Lookup `HOMEWORK_VERDICTS[key]`. -/
def verdictLookup (key : String) : Option String :=
  match HOMEWORK_VERDICTS.lookup key with
  | some v => some v
  | Option.none => Option.none

def kHomeworks : String := "homeworks"
def kHomeworkName : String := "homework_name"
def kStatus : String := "status"

/- ------------------------------------------------------------------
   check_tokens
   ------------------------------------------------------------------ -/

/-- The three environment variables read at startup (`os.getenv`
results; `Option.none` when the variable is unset). -/
structure Env where
  PRACTICUM_TOKEN : Option String
  TELEGRAM_TOKEN : Option String
  TELEGRAM_CHAT_ID : Option String

def exitMsg : String := "Критическая ошибка, выполнение программы остановлено."

/-- Walks the credential list in insertion order; `sys.exit` on the
first `None` value becomes `Except.error`. -/
def checkTokensList : List (String × Option String) → Except String Unit
  | [] => Except.ok ()
  | (_, Option.none) :: _ => Except.error exitMsg
  | (_, some _) :: rest => checkTokensList rest

def kPracticum : String := "PRACTICUM_TOKEN"
def kTelegramTok : String := "TELEGRAM_TOKEN"
def kChatId : String := "TELEGRAM_CHAT_ID"

/-- The function `check_tokens`: aborts the process (non-zero exit) when one of the
three environment variables is `None`, otherwise returns. -/
def check_tokens (e : Env) : Except String Unit :=
  checkTokensList
    [(kPracticum, e.PRACTICUM_TOKEN), (kTelegramTok, e.TELEGRAM_TOKEN), (kChatId, e.TELEGRAM_CHAT_ID)]

/- ------------------------------------------------------------------
   send_message
   ------------------------------------------------------------------ -/

def msgTelegramFail : String := "Сбой в работе Telegram"

/-- The function `send_message`: the Telegram transport outcome for the attempt is
passed in as `telegramOk`; on failure the caught `telegram.TelegramError`
is re-raised as `TelegramAnyErrorException` with a fixed message. -/
def send_message (telegramOk : Bool) (message : String) : Except PollError Unit :=
  if telegramOk then Except.ok () else Except.error (PollError.telegramError msgTelegramFail)

/- ------------------------------------------------------------------
   get_api_answer
   ------------------------------------------------------------------ -/

/-- Outcome of `requests.get` for one cycle: either the call raised a
`requests.RequestException` (transport failure), or it produced a
response with a status code and a JSON body. -/
inductive HttpResult where
  | requestException (msg : String)
  | response (status_code : Nat) (body : PyVal)

def msgOtherReq : String := "Прочие ошибки запроса: "
def msgEndpointFail : String := "Ошибка связи с Эндпойнт."
def logEndpoint1 : String := "Эндпойнт "
def logEndpoint2 : String := " недоступен, код ответа API: "

/-- The `logging.error` line emitted for a non-200 status (the
diagnostic that carries the status code). -/
def endpointLogLine (status : Nat) : String :=
  logEndpoint1 ++ ENDPOINT ++ logEndpoint2 ++ toString status

/-- The function `get_api_answer`: returns the error-level log lines it emits and
either the parsed JSON body or the raised error.  The built-in
`ConnectionError` raised for a non-200 status is not a
`requests.RequestException`, so it propagates uncaught; a transport
exception is caught and re-raised as `ConnectionError` with the
original error interpolated. -/
def get_api_answer (net : HttpResult) (timestamp : Int) :
    List String × Except PollError PyVal :=
  match net with
  | HttpResult.requestException e =>
      ([], Except.error (PollError.connectionError (msgOtherReq ++ e)))
  | HttpResult.response status body =>
      if status ≠ 200 then
        ([endpointLogLine status],
         Except.error (PollError.connectionError msgEndpointFail))
      else ([], Except.ok body)

/- ------------------------------------------------------------------
   check_response
   ------------------------------------------------------------------ -/

def msgTypeDict : String := "Не тот тип данных. Должен быть \"dict\""
def msgTypeList : String := "Не тот тип данных. Должен быть \"list\""
def msgNoData : String := "Нет данных о домашке."
def msgIndexRange : String := "list index out of range"

/-- The function `check_response`: the four ordered checks of homework.py.  The
`IndexError` branch mirrors the indexing `response.get(..)[0]` of the
fourth check; it is unreachable because a truthy list is non-empty. -/
def check_response (response : PyVal) : Except PollError Unit :=
  match response with
  | PyVal.dict es =>
      if optTruthy (dictGet es kHomeworks) = false then
        Except.error (PollError.missingKey msgNoData)
      else
        match dictGet es kHomeworks with
        | some (PyVal.list xs) =>
            match xs with
            | PyVal.dict _ :: _ => Except.ok ()
            | _ :: _ => Except.error (PollError.typeError msgTypeDict)
            | [] => Except.error (PollError.indexError msgIndexRange)
        | _ => Except.error (PollError.typeError msgTypeList)
  | _ => Except.error (PollError.typeError msgTypeDict)

/- ------------------------------------------------------------------
   parse_status
   ------------------------------------------------------------------ -/

def msgNoNameKey : String := "Нет ключа \"homework_name\"."
def msgBadStatus : String := "Неожиданный статус домашней работы"
def msgUnhashableList : String := "unhashable type: \x27list\x27"
def msgUnhashableDict : String := "unhashable type: \x27dict\x27"
def msgNoGetAttr : String := "object has no attribute \x27get\x27"
def tmplChanged1 : String := "Изменился статус проверки работы \""
def tmplChanged2 : String := "\". "

/-- The function `parse_status`: fails with `KeyError` when `homework_name` is
absent or falsy, or when `status` is not a key of `HOMEWORK_VERDICTS`
(an unhashable `status` value makes the membership test itself raise
`TypeError`; a non-dict argument has no `.get` and raises
`AttributeError`); otherwise returns the f-string
`Изменился статус проверки работы "{homework_name}". {verdict}`. -/
def parse_status (homework : PyVal) : Except PollError String :=
  match homework with
  | PyVal.dict es =>
      match dictGet es kHomeworkName with
      | Option.none => Except.error (PollError.keyError msgNoNameKey)
      | some nameVal =>
          if truthy nameVal = false then
            Except.error (PollError.keyError msgNoNameKey)
          else
            match dictGet es kStatus with
            | some (PyVal.list _) => Except.error (PollError.typeError msgUnhashableList)
            | some (PyVal.dict _) => Except.error (PollError.typeError msgUnhashableDict)
            | some (PyVal.str st) =>
                match verdictLookup st with
                | some verdict =>
                    Except.ok (tmplChanged1 ++ pyStrOf nameVal ++ tmplChanged2 ++ verdict)
                | Option.none => Except.error (PollError.keyError msgBadStatus)
            | _ => Except.error (PollError.keyError msgBadStatus)
  | _ => Except.error (PollError.attributeError msgNoGetAttr)

/- ------------------------------------------------------------------
   The polling loop of main
   ------------------------------------------------------------------ -/

/-- The loop-owned mutable variables of `main`: the poll timestamp and
the two last-sent-message trackers. -/
structure BotState where
  timestamp : Int
  saved_homework_status : String
  saved_error_message : String
deriving DecidableEq

/-- External world for one loop cycle: the outcome of the HTTP request
and whether the Telegram channel delivers sends attempted this cycle. -/
structure CycleEnv where
  net : HttpResult
  telegramOk : Bool

/-- How one cycle ends: the loop goes around again with a new state, or
an exception escapes the `try` statement and `main` terminates. -/
inductive CycleOutcome where
  | next (s : BotState)
  | crashed (e : PollError)

/-- Observable result of one cycle: the timestamp passed to
`get_api_answer`, the messages passed to `send_message` (attempted
sends, delivered or not), and the outcome. -/
structure CycleResult where
  fetched : Int
  sends : List String
  outcome : CycleOutcome

/-- The `try` block of the loop body: `get_api_answer`, then
`check_response`, then `homeworks = response.get('homeworks')`.
Exceptions from any of these are caught by the `except` clauses.
The final match is unreachable: `check_response` only succeeds on
dicts. -/
def tryBlock (env : CycleEnv) (timestamp : Int) : Except PollError (Option PyVal) :=
  match (get_api_answer env.net timestamp).2 with
  | Except.error e => Except.error e
  | Except.ok response =>
      match check_response response with
      | Except.error e => Except.error e
      | Except.ok () =>
          match response with
          | PyVal.dict es => Except.ok (dictGet es kHomeworks)
          | _ => Except.error (PollError.attributeError msgNoGetAttr)

def msgNotSubscript : String := "object is not subscriptable"

/-- Python `homeworks[0]` on the value bound to `homeworks`. -/
def indexZero : Option PyVal → Except PollError PyVal
  | some (PyVal.list (h :: _)) => Except.ok h
  | some (PyVal.list []) => Except.error (PollError.indexError msgIndexRange)
  | some (PyVal.str s) =>
      match s.toList with
      | c :: _ => Except.ok (PyVal.str (String.mk [c]))
      | [] => Except.error (PollError.indexError msgIndexRange)
  | _ => Except.error (PollError.typeError msgNotSubscript)

/-- The `else` block up to the message: `parse_status(homeworks[0])`.
Exceptions raised here are NOT caught by the `except` clauses of the
same `try` statement. -/
def elseBlock (homeworks : Option PyVal) : Except PollError String :=
  match indexZero homeworks with
  | Except.error e => Except.error e
  | Except.ok hw => parse_status hw

def noDataPrefix : String := "Работа пока не на проверке: "
def failPrefix : String := "Сбой в работе программы: "

/-- The user-facing message an `except` clause builds for a caught
error: `MissiningKeyException` gets the benign no-data phrasing, every
other exception the program-failure phrasing. -/
def errorReportMessage (e : PollError) : String :=
  match e with
  | PollError.missingKey m => noDataPrefix ++ PollError.errStr (PollError.missingKey m)
  | _ => failPrefix ++ PollError.errStr e

/-- Shared body of the two `except` clauses: compare against the single
`saved_error_message` slot, send and update on difference; a Telegram
failure during the send is raised from inside the handler and escapes. -/
def handleErrorCycle (fetched : Int) (telegramOk : Bool) (s : BotState)
    (message : String) : CycleResult :=
  if message ≠ s.saved_error_message then
    match send_message telegramOk message with
    | Except.ok () =>
        CycleResult.mk fetched [message]
          (CycleOutcome.next { s with saved_error_message := message })
    | Except.error e => CycleResult.mk fetched [message] (CycleOutcome.crashed e)
  else CycleResult.mk fetched [] (CycleOutcome.next s)

/-- One iteration of the `while True` loop of `main`. -/
def runCycle (env : CycleEnv) (s : BotState) : CycleResult :=
  match tryBlock env s.timestamp with
  | Except.error e => handleErrorCycle s.timestamp env.telegramOk s (errorReportMessage e)
  | Except.ok homeworks =>
      match elseBlock homeworks with
      | Except.error e => CycleResult.mk s.timestamp [] (CycleOutcome.crashed e)
      | Except.ok message =>
          if s.saved_homework_status = message then
            CycleResult.mk s.timestamp [] (CycleOutcome.next s)
          else
            match send_message env.telegramOk message with
            | Except.ok () =>
                CycleResult.mk s.timestamp [message]
                  (CycleOutcome.next { s with saved_homework_status := message })
            | Except.error e =>
                CycleResult.mk s.timestamp [message] (CycleOutcome.crashed e)

/-- Runs the loop over a finite list of cycle environments.  Returns
the timestamps passed to `get_api_answer`, the messages passed to
`send_message`, and `some e` when an exception escaped the loop and
terminated `main` (remaining environments are then never consumed). -/
def runLoop : BotState → List CycleEnv → List Int × List String × Option PollError
  | _, [] => ([], [], Option.none)
  | s, env :: rest =>
      let r := runCycle env s
      match r.outcome with
      | CycleOutcome.crashed e => ([r.fetched], r.sends, some e)
      | CycleOutcome.next s2 =>
          let rec2 := runLoop s2 rest
          (r.fetched :: rec2.1, r.sends ++ rec2.2.1, rec2.2.2)

/- ------------------------------------------------------------------
   main
   ------------------------------------------------------------------ -/

def greetingMessage : String := "Я буду инфорировать о статусе проверки твоей домашки."

/-- Observable result of a run of `main`: whether the config gate
exited the process, the timestamps of all API fetches, all messages
handed to `send_message` (the greeting included), and the uncaught
exception that terminated the process, when one did. -/
structure MainResult where
  exited : Bool
  fetches : List Int
  sends : List String
  crash : Option PollError

/-- The function `main`, run on an explicit environment: credentials, the clock
value at startup, the Telegram outcome for the startup greeting, and
one `CycleEnv` per loop iteration. -/
def mainRun (e : Env) (now : Int) (startupTelegramOk : Bool)
    (cycles : List CycleEnv) : MainResult :=
  match check_tokens e with
  | Except.error _ => MainResult.mk true [] [] Option.none
  | Except.ok () =>
      let timestamp := now - RETRY_PERIOD
      match send_message startupTelegramOk greetingMessage with
      | Except.error err => MainResult.mk false [] [greetingMessage] (some err)
      | Except.ok () =>
          let s0 : BotState := BotState.mk timestamp "" ""
          let r := runLoop s0 cycles
          MainResult.mk false r.1 (greetingMessage :: r.2.1) r.2.2

/- ------------------------------------------------------------------
   Substring and ordering predicates on character lists (used to state
   the claims about the shape of formatted messages)
   ------------------------------------------------------------------ -/

/-- Predicate `charsHasSub s pat`: `pat` occurs as a contiguous run inside `s`. -/
def charsHasSub (s pat : List Char) : Bool :=
  match s with
  | [] => pat.isEmpty
  | c :: t => pat.isPrefixOf (c :: t) || charsHasSub t pat

/-- Predicate `charsBefore s x y`: some occurrence of `x` in `s` is followed,
after its end, by an occurrence of `y`. -/
def charsBefore (s x y : List Char) : Bool :=
  match s with
  | [] => x.isEmpty && y.isEmpty
  | c :: t =>
      (x.isPrefixOf (c :: t) && charsHasSub ((c :: t).drop x.length) y)
        || charsBefore t x y

/- ------------------------------------------------------------------
   Concrete test data
   ------------------------------------------------------------------ -/

def emptyStr : String := ""
def tokA : String := "a"
def nameHw1 : String := "hw1"
def nameHw : String := "hw"
def stUnknown : String := "unknown"

/-- An environment with all three variables set. -/
def okEnv : Env := Env.mk (some tokA) (some tokA) (some tokA)

/-- An environment whose first credential is set but empty. -/
def envEmptyTok : Env := Env.mk (some emptyStr) (some tokA) (some tokA)

/-- An environment whose first credential is unset. -/
def envMissingTok : Env := Env.mk Option.none (some tokA) (some tokA)

/-- A well-formed homework record under review. -/
def hwGood : PyVal :=
  PyVal.dict [(kHomeworkName, PyVal.str nameHw1), (kStatus, PyVal.str kReviewing)]

/-- A record with an unrecognized status code. -/
def hwBadStatus : PyVal :=
  PyVal.dict [(kHomeworkName, PyVal.str nameHw), (kStatus, PyVal.str stUnknown)]

/-- Entries of an approved record. -/
def hwApprovedEntries : List (String × PyVal) :=
  [(kHomeworkName, PyVal.str nameHw), (kStatus, PyVal.str kApproved)]

/-- An approved record. -/
def hwApproved : PyVal := PyVal.dict hwApprovedEntries

def goodBody : PyVal := PyVal.dict [(kHomeworks, PyVal.list [hwGood])]
def badStatusBody : PyVal := PyVal.dict [(kHomeworks, PyVal.list [hwBadStatus])]
def emptyHwBody : PyVal := PyVal.dict [(kHomeworks, PyVal.list [])]

/-- Entries of a dict response whose `homeworks` value is the integer
1: it has no non-empty `homeworks` sequence, yet is truthy. -/
def cexBadHomeworksEntries : List (String × PyVal) := [(kHomeworks, PyVal.int 1)]

/-- The response built from those entries. -/
def cexBadHomeworks : PyVal := PyVal.dict cexBadHomeworksEntries

def initState : BotState := BotState.mk 400 emptyStr emptyStr

def cycGood : CycleEnv := CycleEnv.mk (HttpResult.response 200 goodBody) true
def cycBadStatus : CycleEnv := CycleEnv.mk (HttpResult.response 200 badStatusBody) true
def cycNoData : CycleEnv := CycleEnv.mk (HttpResult.response 200 emptyHwBody) true
def cyc500 : CycleEnv := CycleEnv.mk (HttpResult.response 500 goodBody) true
def cycGoodBadTg : CycleEnv := CycleEnv.mk (HttpResult.response 200 goodBody) false

/-- The formatted message for `hwGood`. -/
def reviewMsg : String := tmplChanged1 ++ nameHw1 ++ tmplChanged2 ++ verdictReviewing

/-- The formatted message for `hwApproved`. -/
def apprMsg : String := tmplChanged1 ++ nameHw ++ tmplChanged2 ++ verdictApproved

/-- The no-data report message the loop builds. -/
def noDataMsgFull : String := noDataPrefix ++ msgNoData

/-- The program-failure report message for an HTTP 500 cycle. -/
def fail500MsgFull : String := failPrefix ++ msgEndpointFail

/- ------------------------------------------------------------------
   Shared helper lemmas
   ------------------------------------------------------------------ -/

theorem charsHasSub_append_here (y c : List Char) : charsHasSub (y ++ c) y = true := by
  cases y with
  | nil => cases c <;> simp [charsHasSub, List.isPrefixOf]
  | cons a ys =>
      simp [charsHasSub, List.isPrefixOf_iff_prefix, List.cons_prefix_cons,
        List.prefix_append]

theorem charsHasSub_cons_of (ch : Char) (s p : List Char)
    (h : charsHasSub s p = true) : charsHasSub (ch :: s) p = true := by
  simp [charsHasSub, h]

theorem charsHasSub_append_left (a y c : List Char) :
    charsHasSub (a ++ (y ++ c)) y = true := by
  induction a with
  | nil => simpa using charsHasSub_append_here y c
  | cons ch t ih => simpa [List.cons_append] using charsHasSub_cons_of ch _ _ ih

theorem charsBefore_here (x r y : List Char) (h : charsHasSub r y = true) :
    charsBefore (x ++ r) x y = true := by
  cases x with
  | nil =>
      cases r with
      | nil =>
          simp [charsHasSub] at h
          simp [charsBefore, h]
      | cons a t =>
          simp [charsBefore, List.isPrefixOf]
          exact Or.inl h
  | cons a xs =>
      simp [charsBefore, List.isPrefixOf_iff_prefix, List.cons_prefix_cons,
        List.prefix_append, List.drop_left, h]

theorem charsBefore_cons_of (ch : Char) (s x y : List Char)
    (h : charsBefore s x y = true) : charsBefore (ch :: s) x y = true := by
  simp [charsBefore, h]

theorem charsBefore_append_left (a x r y : List Char) (h : charsHasSub r y = true) :
    charsBefore (a ++ (x ++ r)) x y = true := by
  induction a with
  | nil => simpa using charsBefore_here x r y h
  | cons ch t ih => simpa [List.cons_append] using charsBefore_cons_of ch _ _ _ ih

/-- Every branch of a cycle calls `get_api_answer` with the state's
timestamp. -/
theorem runCycle_fetched (env : CycleEnv) (s : BotState) :
    (runCycle env s).fetched = s.timestamp := by
  unfold runCycle
  split
  · unfold handleErrorCycle
    split
    · split <;> rfl
    · rfl
  · split
    · rfl
    · split
      · rfl
      · split <;> rfl

/-- No branch of a cycle writes to the `timestamp` variable. -/
theorem runCycle_next_timestamp (env : CycleEnv) (s s2 : BotState)
    (h : (runCycle env s).outcome = CycleOutcome.next s2) : s2.timestamp = s.timestamp := by
  unfold runCycle at h
  split at h
  · unfold handleErrorCycle at h
    split at h
    · split at h
      · simp at h
        subst h
        rfl
      · simp at h
    · simp at h
      subst h
      rfl
  · split at h
    · simp at h
    · split at h
      · simp at h
        subst h
        rfl
      · split at h
        · simp at h
          subst h
          rfl
        · simp at h

/-- Across the whole loop, every fetch uses the initial timestamp. -/
theorem runLoop_fetches (cycles : List CycleEnv) (s : BotState) :
    ∀ t ∈ (runLoop s cycles).1, t = s.timestamp := by
  induction cycles generalizing s with
  | nil => simp [runLoop]
  | cons c rest ih =>
      intro t ht
      simp only [runLoop] at ht
      split at ht
      · simp at ht
        rw [ht]
        exact runCycle_fetched c s
      · rename_i s2 hout
        simp at ht
        rcases ht with h1 | h2
        · rw [h1]
          exact runCycle_fetched c s
        · rw [ih s2 t h2]
          exact runCycle_next_timestamp c s s2 hout

/-- A cycle that attempts a send while the Telegram channel is down
ends with the `TelegramAnyErrorException` escaping the loop. -/
theorem runCycle_send_fail (env : CycleEnv) (s : BotState)
    (hbad : env.telegramOk = false) (hsends : (runCycle env s).sends ≠ []) :
    (runCycle env s).outcome =
      CycleOutcome.crashed (PollError.telegramError msgTelegramFail) := by
  unfold runCycle at hsends ⊢
  cases htb : tryBlock env s.timestamp with
  | error e =>
      simp only [htb] at hsends ⊢
      unfold handleErrorCycle at hsends ⊢
      by_cases hms : errorReportMessage e ≠ s.saved_error_message
      · rw [if_pos hms]
        simp [send_message, hbad]
      · rw [if_neg hms] at hsends
        simp at hsends
  | ok hws =>
      simp only [htb] at hsends ⊢
      cases hel : elseBlock hws with
      | error e =>
          simp only [hel] at hsends
          simp at hsends
      | ok m =>
          simp only [hel] at hsends ⊢
          by_cases heq : s.saved_homework_status = m
          · rw [if_pos heq] at hsends
            simp at hsends
          · rw [if_neg heq]
            simp [send_message, hbad]

/- ------------------------------------------------------------------
   Claims
   ------------------------------------------------------------------ -/

/-- Claim C1 (code bug).  The claim says a `parse_status` failure — a
record with an unrecognized status — is caught, reported via the
Notifier, and the loop continues.  In the code `parse_status` is called
in the `else` clause of the `try` statement, so its `KeyError` is not
caught by the `except` clauses: on a cycle whose response passes
`check_response` but whose record has status `unknown`, nothing is
sent, the exception escapes, and `main` terminates — with a second
cycle environment available, only one fetch ever happens. -/
theorem c1_parse_status_failure_terminates_main :
    parse_status hwBadStatus = Except.error (PollError.keyError msgBadStatus) ∧
    check_response badStatusBody = Except.ok () ∧
    (runCycle cycBadStatus initState).outcome =
      CycleOutcome.crashed (PollError.keyError msgBadStatus) ∧
    (runCycle cycBadStatus initState).sends = [] ∧
    (runLoop initState [cycBadStatus, cycGood]).1 = [400] ∧
    (runLoop initState [cycBadStatus, cycGood]).2.2 =
      some (PollError.keyError msgBadStatus) :=
  ⟨rfl, rfl, rfl, rfl, rfl, rfl⟩

/-- Claim C2, counterexample.  The claim says a present-but-empty
credential makes the program terminate before any network call; in the
code `check_tokens` only tests `value is None`, so an empty
`PRACTICUM_TOKEN` passes the gate and the program proceeds. -/
theorem c2_counterexample :
    check_tokens envEmptyTok = Except.ok () ∧
    (mainRun envEmptyTok 1000 true []).exited = false ∧
    (mainRun envEmptyTok 1000 true []).crash = Option.none :=
  ⟨rfl, rfl, rfl⟩

/-- Claim C2 as amended: the program terminates with a non-zero exit
(before any network call and before any send) exactly when at least
one of the three credentials is unset (`None`); set-but-empty values
pass, and with all three set `check_tokens` returns and `main`
proceeds. -/
theorem c2_config_gate (e : Env) :
    (check_tokens e = Except.ok () ↔
      e.PRACTICUM_TOKEN.isSome = true ∧ e.TELEGRAM_TOKEN.isSome = true ∧
        e.TELEGRAM_CHAT_ID.isSome = true) ∧
    (¬ check_tokens e = Except.ok () →
      ∀ now ok cycles, (mainRun e now ok cycles).exited = true ∧
        (mainRun e now ok cycles).fetches = [] ∧ (mainRun e now ok cycles).sends = []) := by
  obtain ⟨p, t, c⟩ := e
  cases p <;> cases t <;> cases c <;>
    simp [check_tokens, checkTokensList, mainRun]

theorem c2_witness :
    (mainRun envMissingTok 1000 true []).exited = true ∧
    (mainRun envMissingTok 1000 true []).fetches = [] :=
  have h := (c2_config_gate envMissingTok).2
    (fun hh => Except.noConfusion hh) 1000 true []
  ⟨h.1, h.2.1⟩

/-- Claim C3, counterexample.  For the approved record with name `hw`,
`parse_status` returns the template string, and in it the approved
verdict text does NOT appear before the name: the name appears before
the verdict, refuting the claim's parenthetical order. -/
theorem c3_counterexample :
    parse_status hwApproved = Except.ok apprMsg ∧
    charsBefore apprMsg.data verdictApproved.data nameHw.data = false ∧
    charsBefore apprMsg.data nameHw.data verdictApproved.data = true :=
  ⟨rfl, by decide, by decide⟩

/-- Claim C3 as amended: for every homework record whose
`homework_name` is a non-empty string and whose `status` is
`approved`, `parse_status` returns the fixed template embedding the
approved verdict text and the name with the NAME appearing before the
verdict text (not the other way round). -/
theorem c3_parse_status_approved (es : List (String × PyVal)) (name : String)
    (hname : dictGet es kHomeworkName = some (PyVal.str name))
    (hne : ¬ name = "")
    (hstatus : dictGet es kStatus = some (PyVal.str kApproved)) :
    parse_status (PyVal.dict es) =
      Except.ok (tmplChanged1 ++ name ++ tmplChanged2 ++ verdictApproved) ∧
    charsBefore (tmplChanged1 ++ name ++ tmplChanged2 ++ verdictApproved).data
      name.data verdictApproved.data = true := by
  constructor
  · simp [parse_status, hname, hstatus, truthy, hne, verdictLookup, HOMEWORK_VERDICTS,
      List.lookup, pyStrOf, kApproved]
  · have hd : (tmplChanged1 ++ name ++ tmplChanged2 ++ verdictApproved).data =
        tmplChanged1.data ++ (name.data ++ (tmplChanged2.data ++ verdictApproved.data)) := by
      simp [String.data_append]
    rw [hd]
    exact charsBefore_append_left tmplChanged1.data name.data
      (tmplChanged2.data ++ verdictApproved.data) verdictApproved.data
      (by simpa using charsHasSub_append_left tmplChanged2.data verdictApproved.data [])

theorem c3_witness :
    parse_status (PyVal.dict hwApprovedEntries) =
      Except.ok (tmplChanged1 ++ nameHw ++ tmplChanged2 ++ verdictApproved) :=
  (c3_parse_status_approved hwApprovedEntries nameHw rfl (by decide) rfl).1

/-- Claim C4, counterexample.  A dict response whose `homeworks` value
is the integer 1 lacks a non-empty `homeworks` sequence, yet
`check_response` fails with the type-error kind (third check), not the
no-data kind, refuting the claim's final universal clause. -/
theorem c4_counterexample :
    (∀ xs, dictGet cexBadHomeworksEntries kHomeworks ≠ some (PyVal.list xs)) ∧
    check_response cexBadHomeworks = Except.error (PollError.typeError msgTypeList) ∧
    (PollError.typeError msgTypeList).kind ≠ ErrKind.missingKey :=
  ⟨fun xs h => by simp [dictGet, cexBadHomeworksEntries] at h, rfl, by decide⟩

/-- Claim C4 as amended: `check_response` applies exactly the four
ordered, short-circuiting checks — non-dict response → type-error;
absent or FALSY `homeworks` (including the empty list) → no-data kind;
truthy non-list `homeworks` → type-error; first element of a truthy
list not a dict → type-error; otherwise it returns.  A response whose
`homeworks` is a truthy non-sequence fails with type-error, not
no-data. -/
theorem c4_check_response_checks (r : PyVal) :
    ((∀ es, r ≠ PyVal.dict es) →
        check_response r = Except.error (PollError.typeError msgTypeDict)) ∧
    (∀ es, r = PyVal.dict es →
      (optTruthy (dictGet es kHomeworks) = false →
          check_response r = Except.error (PollError.missingKey msgNoData)) ∧
      (optTruthy (dictGet es kHomeworks) = true →
        ((∀ xs, dictGet es kHomeworks ≠ some (PyVal.list xs)) →
            check_response r = Except.error (PollError.typeError msgTypeList)) ∧
        (∀ x xs, dictGet es kHomeworks = some (PyVal.list (x :: xs)) →
          ((∀ ds, x ≠ PyVal.dict ds) →
              check_response r = Except.error (PollError.typeError msgTypeDict)) ∧
          (∀ ds, x = PyVal.dict ds → check_response r = Except.ok ())))) := by
  constructor
  · intro hnd
    cases r with
    | dict es => exact absurd rfl (hnd es)
    | none => rfl
    | bool b => rfl
    | int n => rfl
    | str s => rfl
    | list xs => rfl
  · rintro es rfl
    refine ⟨fun hf => by simp [check_response, hf], fun ht => ⟨?_, ?_⟩⟩
    · intro hnl
      rcases hdg : dictGet es kHomeworks with _ | v
      · rw [hdg] at ht
        exact absurd ht (by simp [optTruthy])
      · cases v with
        | list xs => exact absurd hdg (hnl xs)
        | none =>
            rw [hdg] at ht
            simp [optTruthy, truthy] at ht
        | bool b =>
            simp [hdg, optTruthy] at ht
            simp [check_response, hdg, optTruthy, ht]
        | int n =>
            simp [hdg, optTruthy] at ht
            simp [check_response, hdg, optTruthy, ht]
        | str s =>
            simp [hdg, optTruthy] at ht
            simp [check_response, hdg, optTruthy, ht]
        | dict ds =>
            simp [hdg, optTruthy] at ht
            simp [check_response, hdg, optTruthy, ht]
    · rintro x xs hdg
      constructor
      · intro hx
        cases x with
        | dict ds => exact absurd rfl (hx ds)
        | none => simp [check_response, hdg, optTruthy, truthy]
        | bool b => simp [check_response, hdg, optTruthy, truthy]
        | int n => simp [check_response, hdg, optTruthy, truthy]
        | str s => simp [check_response, hdg, optTruthy, truthy]
        | list ys => simp [check_response, hdg, optTruthy, truthy]
      · rintro ds rfl
        simp [check_response, hdg, optTruthy, truthy]

theorem c4_witness : check_response goodBody = Except.ok () :=
  ((((c4_check_response_checks goodBody).2 _ rfl).2 rfl).2 hwGood [] rfl).2 _ rfl

/-- Claim C5 (confirmed).  `get_api_answer` fails with the
connection-error kind exactly when the request raises a transport
exception or the HTTP status is not 200; on a non-200 status the
error-level diagnostic it logs carries the status code; on a 200
status it returns the parsed JSON body. -/
theorem c5_get_api_answer (net : HttpResult) (t : Int) :
    (∀ m, net = HttpResult.requestException m →
        (get_api_answer net t).2 =
          Except.error (PollError.connectionError (msgOtherReq ++ m))) ∧
    (∀ st body, net = HttpResult.response st body →
        (st ≠ 200 →
            (get_api_answer net t).2 =
              Except.error (PollError.connectionError msgEndpointFail) ∧
            (get_api_answer net t).1 = [endpointLogLine st] ∧
            endpointLogLine st = logEndpoint1 ++ ENDPOINT ++ logEndpoint2 ++ toString st) ∧
        (st = 200 → (get_api_answer net t).2 = Except.ok body)) := by
  constructor
  · rintro m rfl
    rfl
  · rintro st body rfl
    constructor
    · intro hne
      refine ⟨?_, ?_, rfl⟩ <;> simp [get_api_answer, hne]
    · rintro rfl
      rfl

theorem c5_witness :
    (get_api_answer (HttpResult.response 500 goodBody) 0).2 =
      Except.error (PollError.connectionError msgEndpointFail) ∧
    (get_api_answer (HttpResult.response 500 goodBody) 0).1 = [endpointLogLine 500] :=
  have h := ((c5_get_api_answer (HttpResult.response 500 goodBody) 0).2
    500 goodBody rfl).1 (by decide)
  ⟨h.1, h.2.1⟩

/-- Claim C6 (confirmed).  Given two consecutive successful cycles
producing the same formatted status message `m` that differs from the
stored last-homework-status, `send_message` is called exactly once for
`m` across both cycles (in the first), and the stored
`saved_homework_status` is updated only when that send occurs: the
second cycle sends nothing and leaves the state unchanged. -/
theorem c6_status_dedup (env : CycleEnv) (s : BotState) (hws : Option PyVal) (m : String)
    (hok : env.telegramOk = true)
    (htry : tryBlock env s.timestamp = Except.ok hws)
    (hmsg : elseBlock hws = Except.ok m)
    (hnew : ¬ s.saved_homework_status = m) :
    (runCycle env s).sends = [m] ∧
    (runCycle env s).outcome = CycleOutcome.next { s with saved_homework_status := m } ∧
    (runCycle env { s with saved_homework_status := m }).sends = [] ∧
    (runCycle env { s with saved_homework_status := m }).outcome =
      CycleOutcome.next { s with saved_homework_status := m } := by
  have htry2 : tryBlock env ({ s with saved_homework_status := m } : BotState).timestamp =
      Except.ok hws := htry
  refine ⟨?_, ?_, ?_, ?_⟩ <;>
    simp [runCycle, htry, htry2, hmsg, hnew, send_message, hok]

theorem c6_witness :
    (runCycle cycGood initState).sends = [reviewMsg] ∧
    (runCycle cycGood { initState with saved_homework_status := reviewMsg }).sends = [] :=
  have h := c6_status_dedup cycGood initState (some (PyVal.list [hwGood])) reviewMsg
    rfl rfl rfl (by decide)
  ⟨h.1, h.2.2.1⟩

/-- Claim C7 (confirmed).  Errors of every kind — the benign no-data
`MissiningKeyException` and the fatal-looking rest alike — are
deduplicated against the single `saved_error_message` slot: a first
erroring cycle whose report message differs from the slot sends it and
overwrites the slot; a second erroring cycle sends nothing when its
message equals the first one, and sends and overwrites when it
differs. -/
theorem c7_error_dedup (e1 e2 : CycleEnv) (s : BotState) (err1 err2 : PollError)
    (hok1 : e1.telegramOk = true) (hok2 : e2.telegramOk = true)
    (ht1 : ∀ t, tryBlock e1 t = Except.error err1)
    (ht2 : ∀ t, tryBlock e2 t = Except.error err2)
    (hA : ¬ errorReportMessage err1 = s.saved_error_message) :
    (runCycle e1 s).sends = [errorReportMessage err1] ∧
    (runCycle e1 s).outcome =
      CycleOutcome.next { s with saved_error_message := errorReportMessage err1 } ∧
    (errorReportMessage err2 = errorReportMessage err1 →
      (runCycle e2 { s with saved_error_message := errorReportMessage err1 }).sends = [] ∧
      (runCycle e2 { s with saved_error_message := errorReportMessage err1 }).outcome =
        CycleOutcome.next { s with saved_error_message := errorReportMessage err1 }) ∧
    (¬ errorReportMessage err2 = errorReportMessage err1 →
      (runCycle e2 { s with saved_error_message := errorReportMessage err1 }).sends =
        [errorReportMessage err2] ∧
      (runCycle e2 { s with saved_error_message := errorReportMessage err1 }).outcome =
        CycleOutcome.next { s with saved_error_message := errorReportMessage err2 }) := by
  obtain ⟨ts, sh, se⟩ := s
  refine ⟨?_, ?_, ?_, ?_⟩
  · simp [runCycle, ht1, handleErrorCycle, send_message, hok1, hA]
  · simp [runCycle, ht1, handleErrorCycle, send_message, hok1, hA]
  · intro hBA
    constructor <;> simp [runCycle, ht2, handleErrorCycle, send_message, hok2, hBA]
  · intro hBA
    constructor <;> simp [runCycle, ht2, handleErrorCycle, send_message, hok2, hBA]

theorem c7_witness :
    (runCycle cycNoData initState).sends = [noDataMsgFull] ∧
    (runCycle cyc500 { initState with saved_error_message := noDataMsgFull }).sends =
      [fail500MsgFull] :=
  have h := c7_error_dedup cycNoData cyc500 initState
    (PollError.missingKey msgNoData) (PollError.connectionError msgEndpointFail)
    rfl rfl (fun _ => rfl) (fun _ => rfl) (by decide)
  ⟨h.1, (h.2.2.2 (by decide)).1⟩

/-- Claim C8 (confirmed).  The poll cursor is set once to
(startup time − `RETRY_PERIOD`) and never advanced: every call to
`get_api_answer` in every cycle of any run of `main` carries that same
initial timestamp. -/
theorem c8_cursor_never_advances (e : Env) (now : Int) (ok : Bool)
    (cycles : List CycleEnv) :
    ∀ t ∈ (mainRun e now ok cycles).fetches, t = now - RETRY_PERIOD := by
  intro t ht
  unfold mainRun at ht
  split at ht
  · simp at ht
  · split at ht
    · simp at ht
    · exact runLoop_fetches cycles (BotState.mk (now - RETRY_PERIOD) "" "") t ht

theorem c8_witness : (400 : Int) = 1000 - RETRY_PERIOD :=
  c8_cursor_never_advances okEnv 1000 true [cycGood] 400 (by decide)

/-- Claim C9, counterexample.  The claim's contrast — that in-loop
notify failures, unlike the startup one, let the loop continue — is
false: a cycle that produces a new status message while the Telegram
channel is down raises `TelegramAnyErrorException` out of the loop,
and with a second cycle environment available only one fetch ever
happens. -/
theorem c9_counterexample :
    (runCycle cycGoodBadTg initState).outcome =
      CycleOutcome.crashed (PollError.telegramError msgTelegramFail) ∧
    (runCycle cycGoodBadTg initState).sends = [reviewMsg] ∧
    (runLoop initState [cycGoodBadTg, cycGood]).1 = [400] ∧
    (runLoop initState [cycGoodBadTg, cycGood]).2.2 =
      some (PollError.telegramError msgTelegramFail) :=
  ⟨rfl, rfl, rfl, rfl⟩

/-- Claim C9 as amended: after the credential gate passes, `main`
attempts the fixed greeting exactly once before any poll (it is the
head of every send trace); if that startup send fails with a Telegram
error the process terminates without ever polling; and an in-loop
notify failure likewise terminates the process (the exception is
raised from the `except`/`else` blocks and nothing catches it), so
neither has a retry or continuation. -/
theorem c9_startup_greeting (e : Env) (now : Int) (cycles : List CycleEnv)
    (hc : check_tokens e = Except.ok ()) :
    (mainRun e now false cycles).sends = [greetingMessage] ∧
    (mainRun e now false cycles).fetches = [] ∧
    (mainRun e now false cycles).crash =
      some (PollError.telegramError msgTelegramFail) ∧
    (∀ ok2 cycles2, (mainRun e now ok2 cycles2).sends.head? = some greetingMessage) ∧
    (∀ env2 s2, env2.telegramOk = false → (runCycle env2 s2).sends ≠ [] →
        (runCycle env2 s2).outcome =
          CycleOutcome.crashed (PollError.telegramError msgTelegramFail)) := by
  refine ⟨?_, ?_, ?_, ?_, ?_⟩
  · simp [mainRun, hc, send_message]
  · simp [mainRun, hc, send_message]
  · simp [mainRun, hc, send_message]
  · intro ok2 cycles2
    cases ok2 <;> simp [mainRun, hc, send_message]
  · intro env2 s2 hbad hsends
    exact runCycle_send_fail env2 s2 hbad hsends

theorem c9_witness :
    (mainRun okEnv 1000 false []).sends = [greetingMessage] ∧
    (mainRun okEnv 1000 false []).fetches = [] :=
  have h := c9_startup_greeting okEnv 1000 [] rfl
  ⟨h.1, h.2.1⟩

/-- Claim C10 (confirmed).  Whenever `check_response` returns
normally, the response is a dict whose `homeworks` value is a
non-empty list whose first element is a dict; consequently the
`homeworks[0]` indexing performed afterwards succeeds and
`parse_status` is applied to a dict. -/
theorem c10_check_response_safety (r : PyVal) (h : check_response r = Except.ok ()) :
    ∃ es ds rest, r = PyVal.dict es ∧
      dictGet es kHomeworks = some (PyVal.list (PyVal.dict ds :: rest)) ∧
      indexZero (dictGet es kHomeworks) = Except.ok (PyVal.dict ds) ∧
      elseBlock (dictGet es kHomeworks) = parse_status (PyVal.dict ds) := by
  cases r with
  | none => simp [check_response] at h
  | bool b => simp [check_response] at h
  | int n => simp [check_response] at h
  | str s => simp [check_response] at h
  | list xs => simp [check_response] at h
  | dict es =>
      rcases hdg : dictGet es kHomeworks with _ | v
      · simp only [check_response] at h
        rw [hdg] at h
        simp [optTruthy] at h
      · cases v with
        | none =>
            simp only [check_response] at h
            rw [hdg] at h
            split at h <;> simp at h
        | bool b =>
            simp only [check_response] at h
            rw [hdg] at h
            split at h <;> simp at h
        | int n =>
            simp only [check_response] at h
            rw [hdg] at h
            split at h <;> simp at h
        | str s =>
            simp only [check_response] at h
            rw [hdg] at h
            split at h <;> simp at h
        | dict ds =>
            simp only [check_response] at h
            rw [hdg] at h
            split at h <;> simp at h
        | list xs =>
            cases xs with
            | nil =>
                simp only [check_response] at h
                rw [hdg] at h
                split at h <;> simp at h
            | cons x rest =>
                cases x with
                | dict ds =>
                    refine ⟨es, ds, rest, rfl, hdg, ?_, ?_⟩ <;>
                      rw [hdg] <;> rfl
                | none =>
                    simp only [check_response] at h
                    rw [hdg] at h
                    split at h <;> simp at h
                | bool b =>
                    simp only [check_response] at h
                    rw [hdg] at h
                    split at h <;> simp at h
                | int n =>
                    simp only [check_response] at h
                    rw [hdg] at h
                    split at h <;> simp at h
                | str s =>
                    simp only [check_response] at h
                    rw [hdg] at h
                    split at h <;> simp at h
                | list ys =>
                    simp only [check_response] at h
                    rw [hdg] at h
                    split at h <;> simp at h

theorem c10_witness :
    ∃ es ds rest, goodBody = PyVal.dict es ∧
      dictGet es kHomeworks = some (PyVal.list (PyVal.dict ds :: rest)) ∧
      indexZero (dictGet es kHomeworks) = Except.ok (PyVal.dict ds) ∧
      elseBlock (dictGet es kHomeworks) = parse_status (PyVal.dict ds) :=
  c10_check_response_safety goodBody rfl

end HomeworkBot
